import Mathlib

/-!
# Verification of the `onvif-relay` gateway (atomcam_tools)

Shallow embedding, in Lean 4, of the protocol/security core of the
`onvif-relay` gateway:

* `internal/onvif/soap/auth.go` — WS-Security UsernameToken validation
  (plaintext and digest modes, used-nonce replay set).
* `internal/onvif/server.go` — SOAP request body reading, action dispatch
  and authentication gating for the Device service and the root fallback.
* `internal/mediamtx/client.go` — idempotent relay path configuration
  (`ConfigurePath` and the "path already exists" error recognizer).
* `internal/onvif/ptz/coordinate.go` — ONVIF ↔ AtomCam coordinate
  transforms (`ONVIFToAtomCam`, `AtomCamToONVIF`).
* `internal/onvif/ptz/service.go` — `ContinuousMove` / `AbsoluteMove`
  decision logic and the tracked PTZ position update.

Go `float64` arithmetic is modelled over `ℚ` (the values involved are small
and exactly representable; `math.Round` is round-half-away-from-zero, `int(x)`
is truncation toward zero).  Go stdlib collaborators that are external to the
repository (RFC3339 parsing, base64, SHA-1) are passed in as an explicit
environment so that the control flow of the code of the repository is verbatim.
Mutable process state (the used-nonce `sync.Map`, the per-camera PTZ position)
is threaded explicitly.
-/

namespace OnvifRelay

/-! ## WS-Security validator — `internal/onvif/soap/auth.go` -/

/-- `Password` from auth.go: password with a `Type` attribute. -/
structure Password where
  type : String
  value : String
  deriving DecidableEq, Repr

/-- `UsernameToken` from auth.go. An absent XML element is the empty string,
as in the Go struct (fields are plain `string`s with `omitempty`). -/
structure UsernameToken where
  username : String
  password : Password
  nonce : String
  created : String
  deriving DecidableEq, Repr

/-- `Security` from auth.go: WS-Security header carrying a `UsernameToken`. -/
structure Security where
  usernameToken : UsernameToken
  deriving DecidableEq, Repr

/-- Go stdlib collaborators used by `ValidateUsernameToken`, external to the
repository: `time.Parse(time.RFC3339, ·)` (result as Unix seconds, `none` on
parse error), `base64.StdEncoding.DecodeString`, `sha1`,
`base64.StdEncoding.EncodeToString`, and the current wall clock `time.Now()`
in Unix seconds. -/
structure AuthEnv where
  parseRFC3339 : String → Option Int
  base64Decode : String → Option (List Nat)
  sha1 : List Nat → List Nat
  base64Encode : List Nat → String
  now : Int

/-- The WS-Security PasswordDigest type URI (literal from auth.go line 82). -/
def digestURI : String :=
  "http://docs.oasis-open.org/wss/2004/01/oasis-200401-wss-username-token-profile-1.0#PasswordDigest"

/-- The WS-Security PasswordText type URI (from the WS-Security 1.0
username-token profile; it does not occur in auth.go). -/
def passwordTextURI : String :=
  "http://docs.oasis-open.org/wss/2004/01/oasis-200401-wss-username-token-profile-1.0#PasswordText"

/-- UTF-8 bytes of a string, as `[]byte(s)` in Go. -/
def strBytes (s : String) : List Nat := s.toUTF8.toList.map (fun b => b.toNat)

/-- Replay rejection message (auth.go line 91). -/
def replayErrorMsg : String := "nonce already used (replay attack detected)"

/-- `ValidateUsernameToken` from auth.go, with the `usedNonces` map threaded
explicitly as a list of nonce strings (`LoadOrStore` = membership test plus
insert-if-absent, the timestamps attached to entries only matter to the TTL
sweep).  Returns the `error` result of the Go function together with the updated
used-nonce set.  `subtle.ConstantTimeCompare(a, b) == 1` is equality of the
byte strings. -/
def validateUsernameToken (env : AuthEnv) (security : Option Security)
    (expectedUsername expectedPassword : String) (used : List String) :
    Except String Unit × List String :=
  match security with
  | none => (.error "missing security header", used)
  | some sec =>
    let username := sec.usernameToken.username
    let password := sec.usernameToken.password.value
    let nonce := sec.usernameToken.nonce
    let created := sec.usernameToken.created
    if username ≠ expectedUsername then (.error "invalid credentials", used)
    else if sec.usernameToken.password.type = "" then
      -- Plain text password (not recommended)
      if password ≠ expectedPassword then (.error "invalid credentials", used)
      else (.ok (), used)
    else if sec.usernameToken.password.type = digestURI then
      if nonce = "" ∨ created = "" then
        (.error "nonce and created are required for password digest", used)
      else if nonce ∈ used then
        -- usedNonces.LoadOrStore(nonce, ...) found an existing entry
        (.error replayErrorMsg, used)
      else
        -- LoadOrStore stored the nonce: it is recorded from here on,
        -- whatever the remaining checks decide.
        let used' := nonce :: used
        match env.parseRFC3339 created with
        | none => (.error "invalid created timestamp", used')
        | some createdTime =>
          -- createdTime.Before(now.Add(-5m)) || createdTime.After(now.Add(5m))
          if createdTime < env.now - 300 ∨ createdTime > env.now + 300 then
            (.error "timestamp out of valid range", used')
          else
            match env.base64Decode nonce with
            | none => (.error "invalid nonce encoding", used')
            | some nonceBytes =>
              -- PasswordDigest = Base64(SHA1(nonce + created + password))
              let expectedDigest :=
                env.base64Encode
                  (env.sha1 (nonceBytes ++ strBytes created ++ strBytes expectedPassword))
              if password ≠ expectedDigest then (.error "invalid credentials", used')
              else (.ok (), used')
    else
      (.error ("unsupported password type: " ++ sec.usernameToken.password.type), used)

/-! ## SOAP gateway — `internal/onvif/server.go` -/

/-- Body read stage shared verbatim by all five handlers (server.go lines
102–107, 160–165, 236–241, 395–400, 495–500):
`io.ReadAll(io.LimitReader(r.Body, 1<<20))`.  `io.LimitReader` yields at most
the first `1<<20` bytes of the underlying body and then reports EOF, so
`io.ReadAll` returns the truncated prefix with a nil error; it returns an
error only when the underlying transport read fails (modelled by
`transportErr`), never because the body was larger than the limit.  On error
the handlers send `NewActionFailedFault("Failed to read request body")`. -/
def readBody (bytes : List Nat) (transportErr : Bool) : Except String (List Nat) :=
  if transportErr then .error "Failed to read request body"
  else .ok (bytes.take 1048576)

/-- Outcome of a service handler, as observable at the HTTP layer: which SOAP
fault was sent, or which service operation was invoked. -/
inductive HandlerOutcome
  | actionFailedFault (msg : String)
  | invalidArgsFault (msg : String)
  | notAuthorizedFault
  | invoked (action : String)
  deriving DecidableEq, Repr

/-- `handleDeviceService` from server.go (lines 117–147), after the body has
been read and the action extracted.  `authResult` is the outcome of
`s.validateAuth(body)`; `bodyParseOk` abstracts the XML decode of the
`GetCapabilities` request body (the only device action with a decoded body).
The auth gate runs before the action switch, so every action other than
`GetSystemDateAndTime` — known or not — requires valid auth. -/
def handleDeviceAction (authResult : Except String Unit) (bodyParseOk : Bool)
    (action : String) : HandlerOutcome :=
  if action ≠ "GetSystemDateAndTime" ∧ ¬ authResult.isOk then .notAuthorizedFault
  else if action = "GetDeviceInformation" then .invoked action
  else if action = "GetSystemDateAndTime" then .invoked action
  else if action = "GetCapabilities" then
    if bodyParseOk then .invoked action else .invalidArgsFault "Invalid request"
  else .actionFailedFault ("Unknown action: " ++ action)

/-- `routeToDeviceService` from server.go (lines 531–564): the root-fallback
re-dispatch for device actions.  Same auth gate as `handleDeviceAction`; it is
only ever called with the three known device actions (root switch line 513). -/
def routeToDeviceService (authResult : Except String Unit) (bodyParseOk : Bool)
    (action : String) : HandlerOutcome :=
  if action ≠ "GetSystemDateAndTime" ∧ ¬ authResult.isOk then .notAuthorizedFault
  else if action = "GetDeviceInformation" then .invoked action
  else if action = "GetSystemDateAndTime" then .invoked action
  else if action = "GetCapabilities" then
    if bodyParseOk then .invoked action else .invalidArgsFault "Invalid request"
  else .invoked action  -- unreachable for the actions the root switch routes here

/-- `routeToMediaService` / `routeToPTZService` / `routeToImagingService`
(server.go lines 567–807): unconditional auth gate, then per-action decode and
service invocation (the operation internals are irrelevant to dispatch and are
abstracted to `.invoked`). -/
def routeToAuthedService (authResult : Except String Unit) (action : String) :
    HandlerOutcome :=
  if ¬ authResult.isOk then .notAuthorizedFault else .invoked action

/-- Action lists of the root-fallback switch (server.go lines 511–523). -/
def rootDeviceActions : List String :=
  ["GetDeviceInformation", "GetSystemDateAndTime", "GetCapabilities"]

def rootMediaActions : List String := ["GetProfiles", "GetStreamUri", "GetSnapshotUri"]

def rootPTZActions : List String :=
  ["GetNodes", "GetConfigurations", "ContinuousMove", "Stop", "GotoHomePosition",
   "GetPresets", "GotoPreset", "AbsoluteMove", "RelativeMove"]

def rootImagingActions : List String :=
  ["GetImagingSettings", "SetImagingSettings", "GetOptions"]

/-- `handleRootService` action routing (server.go lines 510–527). -/
def handleRootAction (authResult : Except String Unit) (bodyParseOk : Bool)
    (action : String) : HandlerOutcome :=
  if action ∈ rootDeviceActions then routeToDeviceService authResult bodyParseOk action
  else if action ∈ rootMediaActions then routeToAuthedService authResult action
  else if action ∈ rootPTZActions then routeToAuthedService authResult action
  else if action ∈ rootImagingActions then routeToAuthedService authResult action
  else .actionFailedFault ("Unknown action: " ++ action)

/-- `Server.validateAuth` from server.go (lines 810–825): parse the envelope
(parse failure and absent `Header` both yield an error before the token check;
a missing header is the `none` case), then `ValidateUsernameToken`. -/
def validateAuth (env : AuthEnv) (header : Option Security)
    (expectedUsername expectedPassword : String) (used : List String) :
    Except String Unit × List String :=
  match header with
  | none => (.error "missing security header", used)
  | some sec => validateUsernameToken env (some sec) expectedUsername expectedPassword used

/-! ## Relay orchestration client — `internal/mediamtx/client.go` -/

/-- An error returned by `Client.addPath`: either a structured `apiError`
(non-200 status whose JSON body decoded to a non-empty `error` field, lines
115–121) or a plain formatted error (any other failure). -/
inductive MtxErr
  | api (statusCode : Nat) (message : String)
  | other (msg : String)
  deriving DecidableEq, Repr

/-- `apiError.Error()` (client.go lines 156–158) and plain error text. -/
def MtxErr.text : MtxErr → String
  | .api status message =>
      "mediamtx API error (status " ++ toString status ++ "): " ++ message
  | .other msg => msg

/-- The mapping in `addPath` from an HTTP response to its result (client.go lines
115–122).  `bodyErrField` is the `error` field the JSON decode of the response
body produced (`none` when the body did not decode to an `ErrorResponse`). -/
def addPathResult (statusCode : Nat) (bodyErrField : Option String) (rawBody : String) :
    Except MtxErr Unit :=
  if statusCode = 200 then .ok ()
  else
    match bodyErrField with
    | some m =>
      if m ≠ "" then .error (.api statusCode m)
      else .error (.other ("unexpected status code: " ++ toString statusCode ++ ", body: " ++ rawBody))
    | none => .error (.other ("unexpected status code: " ++ toString statusCode ++ ", body: " ++ rawBody))

/-- `isPathExistsError` (client.go lines 160–167): a `*apiError` with status
400 (`http.StatusBadRequest`) and message exactly "path already exists"; any
non-`apiError` value fails the type assertion and yields false. -/
def isPathExistsError (e : MtxErr) : Bool :=
  match e with
  | .api statusCode message => statusCode == 400 && message == "path already exists"
  | .other _ => false

/-- The three relay interactions `ConfigurePath` can make, as an oracle:
result of the first create, of the delete, and of the retried create. -/
structure RelayOracle where
  firstCreate : Except MtxErr Unit
  deleteRes : Except String Unit
  secondCreate : Except MtxErr Unit

/-- `ConfigurePath` (client.go lines 70–92) over a `RelayOracle`.  Returns the
error result (`MtxErr.text` for pass-through of the error of the first create,
matching `return err` of the original value) together with whether a delete
was attempted. -/
def configurePath (name : String) (r : RelayOracle) : Except String Unit × Bool :=
  match r.firstCreate with
  | .ok _ => (.ok (), false)
  | .error e =>
    if isPathExistsError e then
      match r.deleteRes with
      | .error de => (.error ("failed to delete existing path " ++ name ++ ": " ++ de), true)
      | .ok _ =>
        match r.secondCreate with
        | .error e2 => (.error ("failed to recreate path " ++ name ++ ": " ++ e2.text), true)
        | .ok _ => (.ok (), true)
    else
      (.error e.text, false)

/-! ## PTZ coordinate transform — `internal/onvif/ptz/coordinate.go`

`float64` is modelled by `ℚ`: every constant in the transform (177.5, 90, 8,
5, 0.01, …) and every intermediate value is exactly representable, `math.Round`
is round-half-away-from-zero and `int(·)` on the already-integral rounded value
is exact, so the rational model coincides with the Go computation on the
inputs the theorems quantify over. -/

/-- `clamp` (coordinate.go lines 60–68). -/
def clamp (value min max : ℚ) : ℚ :=
  if value < min then min
  else if value > max then max
  else value

/-- Integer clamping as written inline in service.go (e.g. lines 479–490). -/
def clampZ (value lo hi : ℤ) : ℤ :=
  if value < lo then lo
  else if value > hi then hi
  else value

/-- `int(math.Round(q))`: `math.Round` rounds half away from zero; the `int`
conversion of the integral result is exact. -/
def goRound (q : ℚ) : ℤ :=
  if 0 ≤ q then ⌊q + 1/2⌋ else -⌊-q + 1/2⌋

/-- `int(q)`: Go float-to-int conversion truncates toward zero. -/
def goTrunc (q : ℚ) : ℤ :=
  if 0 ≤ q then ⌊q⌋ else ⌈q⌉

/-- `ONVIFToAtomCam` (coordinate.go lines 10–40): clamp the ONVIF inputs,
pan = round((x+1)·177.5), tilt = round((1−y)·90) (Y inverted),
speed = round(velocity·8)+1 clamped to [1,9]. -/
def ONVIFToAtomCam (x y velocity : ℚ) : ℤ × ℤ × ℤ :=
  let x := clamp x (-1) 1
  let y := clamp y (-1) 1
  let velocity := clamp velocity 0 1
  let pan := goRound ((x + 1) * (355/2))
  let tilt := goRound ((1 - y) * 90)
  let speed0 := goRound (velocity * 8) + 1
  let speed1 := if speed0 < 1 then 1 else speed0
  let speed := if speed1 > 9 then 9 else speed1
  (pan, tilt, speed)

/-- `AtomCamToONVIF` (coordinate.go lines 45–57): x = pan/177.5 − 1,
y = 1 − tilt/90, clamped back into [-1,1]. -/
def AtomCamToONVIF (pan tilt : ℤ) : ℚ × ℚ :=
  let x := (pan : ℚ) / (355/2) - 1
  let y := 1 - (tilt : ℚ) / 90
  (clamp x (-1) 1, clamp y (-1) 1)

/-! ## PTZ service — `internal/onvif/ptz/service.go` -/

/-- Tracked per-camera PTZ position estimate (`Camera.ptzPan` / `ptzTilt`,
camera/client.go; read by `GetPTZPosition`, written by `SetPTZPosition`). -/
structure CamState where
  pan : ℤ
  tilt : ℤ
  deriving DecidableEq, Repr

/-- A command sent to the camera client: `Client.PTZStop()` or
`Client.PTZMove(pan, tilt, speed)`. -/
inductive CamCmd
  | stop
  | move (pan tilt speed : ℤ)
  deriving DecidableEq, Repr

/-- `math.MinInt`, the "uninitialized position" sentinel tested by
AbsoluteMove/RelativeMove (service.go lines 706, 814). -/
def goMinInt : ℤ := -(2 ^ 63)

/-- Exact-real image of `int(math.Round(math.Sqrt(sq)*4.0)) + 5` followed by
clamping to [5,9] (service.go lines 494–500, 761–767, 898–904), expressed on
the *squared* magnitude `sq = x² + y²` so that it stays rational:
`round(4·√sq) ≥ k ↔ √sq ≥ (2k−1)/8 ↔ sq ≥ ((2k−1)/8)²` for `k ≥ 1`, and the
lower clamp at 5 is vacuous since the rounded value is ≥ 0. -/
def contSpeed (sq : ℚ) : ℤ :=
  if 49/64 ≤ sq then 9
  else if 25/64 ≤ sq then 8
  else if 9/64 ≤ sq then 7
  else if 1/64 ≤ sq then 6
  else 5

/-- `Service.ContinuousMove` (service.go lines 426–507) over an explicit
camera state and an oracle for the two possible client calls.  `panTilt` /
`zoom` mirror `velocity.PanTilt` / `velocity.Zoom` (nil = `none`).  The
magnitude test `math.Sqrt(x²+y²) < 0.01` is expressed on squares
(`x²+y² < 1/10000`), which is equivalent for exact reals since both sides are
nonnegative; likewise the speed via `contSpeed`.  `int(v*5.0)` truncates.
Returns (Go error result, final camera state, command sent to the camera). -/
def continuousMove (profileFound ptzCapable : Bool) (profileToken camName : String)
    (panTilt : Option (ℚ × ℚ)) (zoom : Option ℚ) (st : CamState)
    (stopRes moveRes : Except String Unit) :
    Except String Unit × CamState × Option CamCmd :=
  if ¬ profileFound then (.error ("profile not found: " ++ profileToken), st, none)
  else if ¬ ptzCapable then
    (.error ("camera does not support PTZ: " ++ camName), st, none)
  else if zoom.isSome ∧ panTilt.isNone then
    -- zoom-only operation: AtomCam does not support zoom, ignore
    (.ok (), st, none)
  else
    let vx := (panTilt.getD (0, 0)).1
    let vy := (panTilt.getD (0, 0)).2
    let magSq := vx * vx + vy * vy
    if magSq < 1/10000 then
      -- velocityMag < 0.01: velocity too small, treat as stop
      (stopRes, st, some .stop)
    else
      let deltaPan := goTrunc (vx * 5)
      let deltaTilt := goTrunc (vy * 5)
      let newPan := clampZ (st.pan + deltaPan) 0 355
      let newTilt := clampZ (st.tilt + deltaTilt) 0 180
      let speed := contSpeed magSq
      -- SetPTZPosition before Client.PTZMove (service.go lines 503, 506)
      (moveRes, ⟨newPan, newTilt⟩, some (.move newPan newTilt speed))

/-- `Service.AbsoluteMove` (service.go lines 672–776) over an explicit camera
state.  `position` mirrors `position.PanTilt` / `position.Zoom`; `speed` is
`speed.PanTilt` when present.  `hFOV`/`vFOV` are the configured fields of view,
`home` the configured home position.  Comparisons on `math.Sqrt` magnitudes
are expressed on squares as in `continuousMove`.  Returns (Go error result,
final camera state, command sent). -/
def absoluteMove (profileFound ptzCapable : Bool) (profileToken camName : String)
    (panTilt : Option (ℚ × ℚ)) (zoom : Option ℚ) (speed : Option (ℚ × ℚ))
    (hFOV vFOV : ℚ) (home : Option (ℤ × ℤ)) (st : CamState)
    (moveRes : Except String Unit) :
    Except String Unit × CamState × Option CamCmd :=
  if ¬ profileFound then (.error ("profile not found: " ++ profileToken), st, none)
  else if ¬ ptzCapable then
    (.error ("camera does not support PTZ: " ++ camName), st, none)
  else if zoom.isSome ∧ panTilt.isNone then
    (.ok (), st, none)
  else
    match panTilt with
    | none => (.error "pan/tilt position required for AbsoluteMove", st, none)
    | some (x, y) =>
      let posAndState : (ℤ × ℤ) × CamState :=
        if hFOV > 0 ∧ vFOV > 0 then
          -- FOV-aware path (service.go lines 700–745)
          let cur : ℤ × ℤ :=
            if st.pan = goMinInt ∨ st.tilt = goMinInt ∨ st.pan < 0 ∨ st.tilt < 0 then
              home.getD (177, 90)
            else (st.pan, st.tilt)
          let halfH := hFOV / 2
          let halfV := vFOV / 2
          let deltaPan := goRound (x * halfH)
          let deltaTilt := goRound ((1 - y) * halfV) - goTrunc halfV
          let pan := clampZ (cur.1 + deltaPan) 0 355
          let tilt := clampZ (cur.2 + deltaTilt) 0 180
          ((pan, tilt), ⟨cur.1, cur.2⟩)
        else
          -- legacy path (service.go lines 746–752)
          let r := ONVIFToAtomCam x y (1/2)
          ((r.1, r.2.1), st)
      let pan := posAndState.1.1
      let tilt := posAndState.1.2
      let spd : ℤ :=
        match speed with
        | some (sx, sy) =>
          let sq := sx * sx + sy * sy
          -- speedMag = √sq; speedMag > 0.01 ↔ sq > 1/10000
          if sq > 1/10000 then contSpeed sq else 5
        | none => 5
      -- SetPTZPosition before Client.PTZMove (service.go lines 772, 775)
      (moveRes, ⟨pan, tilt⟩, some (.move pan tilt spd))

/-- `config.PTZPreset` (config.go lines 172–181): a preset position or an
MQTT action. -/
structure PTZPreset where
  name : String
  pan : ℤ
  tilt : ℤ
  token : String
  mqttBroker : String
  mqttTopic : String
  mqttMessage : String
  deriving DecidableEq, Repr

/-- Effective token of the preset at index `i`: the configured token, or the
1-based index when it is empty (service.go lines 588–591 and 621–624). -/
def presetTokenAt (p : PTZPreset) (i : Nat) : String :=
  if p.token = "" then toString (i + 1) else p.token

/-- The preset-lookup loop of `Service.GotoPreset` (service.go lines 618–629):
first preset whose effective token equals the requested one. -/
def findPreset (presets : List PTZPreset) (presetToken : String) : Option PTZPreset :=
  (presets.enum.find? (fun ip => presetTokenAt ip.2 ip.1 = presetToken)).map (fun ip => ip.2)

/-- The speed computation shared verbatim by `GotoHomePosition` (service.go
lines 540–555) and `GotoPreset` (lines 650–663): `speedMag` is the *squared*
magnitude `X²+Y²` (no square root here, unlike the other operations), compared
against 0.01; above it, `defaultSpeed = int(avgSpeed*8) + 1` with
`avgSpeed = (X+Y)/2` (`int(·)` truncates), clamped to [1,9]; otherwise 5. -/
def avgSpeed8 (speed : Option (ℚ × ℚ)) : ℤ :=
  match speed with
  | some (sx, sy) =>
    let speedMag := sx * sx + sy * sy
    if speedMag > 1/100 then
      let d := goTrunc ((sx + sy) / 2 * 8) + 1
      let d1 := if d < 1 then 1 else d
      if d1 > 9 then 9 else d1
    else 5
  | none => 5

/-- `Service.GotoHomePosition` (service.go lines 527–569) over an explicit
camera state: resolve the home position (configured home, or the 160/130
default), update the tracked position, then send the move.  Returns (Go error
result, final camera state, command sent). -/
def gotoHomePosition (profileFound ptzCapable : Bool) (profileToken camName : String)
    (speed : Option (ℚ × ℚ)) (home : Option (ℤ × ℤ)) (st : CamState)
    (moveRes : Except String Unit) :
    Except String Unit × CamState × Option CamCmd :=
  if ¬ profileFound then (.error ("profile not found: " ++ profileToken), st, none)
  else if ¬ ptzCapable then
    (.error ("camera does not support PTZ: " ++ camName), st, none)
  else
    let defaultSpeed := avgSpeed8 speed
    let pt : ℤ × ℤ := home.getD (160, 130)
    -- SetPTZPosition before Client.PTZMove (service.go lines 566, 568)
    (moveRes, ⟨pt.1, pt.2⟩, some (.move pt.1 pt.2 defaultSpeed))

/-- `Service.GotoPreset` (service.go lines 605–669) over an explicit camera
state.  `mqttRes` is the result of `mqtt.PublishMessage` for MQTT presets
(which publish instead of moving and leave the tracked position untouched);
a position preset updates the tracked position and then sends the move. -/
def gotoPreset (profileFound ptzCapable : Bool)
    (profileToken camName presetToken : String) (presets : List PTZPreset)
    (speed : Option (ℚ × ℚ)) (st : CamState)
    (mqttRes moveRes : Except String Unit) :
    Except String Unit × CamState × Option CamCmd :=
  if ¬ profileFound then (.error ("profile not found: " ++ profileToken), st, none)
  else if ¬ ptzCapable then
    (.error ("camera does not support PTZ: " ++ camName), st, none)
  else
    match findPreset presets presetToken with
    | none => (.error ("preset not found: " ++ presetToken), st, none)
    | some preset =>
      if preset.mqttBroker ≠ "" ∧ preset.mqttTopic ≠ "" then
        match mqttRes with
        | .error e =>
          (.error ("failed to publish MQTT message for preset " ++ presetToken
            ++ ": " ++ e), st, none)
        | .ok _ => (.ok (), st, none)
      else
        let defaultSpeed := avgSpeed8 speed
        -- SetPTZPosition before Client.PTZMove (service.go lines 666, 668)
        (moveRes, ⟨preset.pan, preset.tilt⟩,
         some (.move preset.pan preset.tilt defaultSpeed))

/-- `Service.RelativeMove` (service.go lines 779–913) over an explicit camera
state.  The `math.IsNaN` rejection of the translation values is omitted: `ℚ`
has no NaN, so that branch cannot fire for any input of this model.  The
uninitialized-position fallback runs before the FOV branch (unlike
`AbsoluteMove`); the legacy branch clamps the translated ONVIF coordinates to
[-1,1] with inline ifs identical to `clamp`.  Square-root comparisons are
expressed on squares as in `continuousMove`. -/
def relativeMove (profileFound ptzCapable : Bool) (profileToken camName : String)
    (panTilt : Option (ℚ × ℚ)) (zoom : Option ℚ) (speed : Option (ℚ × ℚ))
    (hFOV vFOV : ℚ) (home : Option (ℤ × ℤ)) (st : CamState)
    (moveRes : Except String Unit) :
    Except String Unit × CamState × Option CamCmd :=
  if ¬ profileFound then (.error ("profile not found: " ++ profileToken), st, none)
  else if ¬ ptzCapable then
    (.error ("camera does not support PTZ: " ++ camName), st, none)
  else if zoom.isSome ∧ panTilt.isNone then
    (.ok (), st, none)
  else
    match panTilt with
    | none => (.error "pan/tilt translation required for RelativeMove", st, none)
    | some (tx, ty) =>
      let cur : ℤ × ℤ :=
        if st.pan = goMinInt ∨ st.tilt = goMinInt ∨ st.pan < 0 ∨ st.tilt < 0 then
          home.getD (177, 90)
        else (st.pan, st.tilt)
      let pt : ℤ × ℤ :=
        if hFOV > 0 ∧ vFOV > 0 then
          -- FOV-aware path (service.go lines 830–859)
          let deltaPan := goRound (tx * (hFOV / 2))
          let deltaTilt := goRound (-ty * (vFOV / 2))
          (clampZ (cur.1 + deltaPan) 0 355, clampZ (cur.2 + deltaTilt) 0 180)
        else
          -- legacy path (service.go lines 860–889)
          let c := AtomCamToONVIF cur.1 cur.2
          let newX := clamp (c.1 + tx) (-1) 1
          let newY := clamp (c.2 + ty) (-1) 1
          let r := ONVIFToAtomCam newX newY (1/2)
          (r.1, r.2.1)
      let spd : ℤ :=
        match speed with
        | some (sx, sy) =>
          let sq := sx * sx + sy * sy
          -- speedMag = √sq; speedMag > 0.01 ↔ sq > 1/10000
          if sq > 1/10000 then contSpeed sq else 5
        | none => 5
      -- SetPTZPosition before Client.PTZMove (service.go lines 909, 912)
      (moveRes, ⟨pt.1, pt.2⟩, some (.move pt.1 pt.2 spd))

/-! ## Concrete environment used by witnesses -/

/-- A concrete `AuthEnv`: every `Created` string parses to time 0 (= `now`,
inside the ±5-minute window), every nonce base64-decodes to `[]`, and the
digest of anything is the one-character string "D". -/
def trivialEnv : AuthEnv :=
  ⟨fun _ => some 0, fun _ => some [], fun _ => [], fun _ => "D", 0⟩

/-- A concrete `AuthEnv` in which no `Created` string parses: digest
validations fail after the nonce has been recorded. -/
def noParseEnv : AuthEnv :=
  ⟨fun _ => none, fun _ => some [], fun _ => [], fun _ => "D", 0⟩

/-! ## Theorems -/

/-- **C2, counterexample.** The claim says a POST body exceeding the 1 MiB
ceiling yields an Action-Failed SOAP fault rather than being silently
truncated.  On the code, `io.ReadAll(io.LimitReader(r.Body, 1<<20))` cannot
fail because of body size: a 1 MiB + 1 byte body is read as its first 1 MiB
with a nil error and processing continues on the truncated bytes. -/
theorem body_over_limit_truncated_cex :
    1048576 < (List.replicate 1048577 (0 : Nat)).length ∧
    readBody (List.replicate 1048577 (0 : Nat)) false
      = .ok (List.replicate 1048576 (0 : Nat)) := by
  refine ⟨by rw [List.length_replicate]; omega, ?_⟩
  have h1 : readBody (List.replicate 1048577 (0 : Nat)) false
      = .ok ((List.replicate 1048577 (0 : Nat)).take 1048576) := rfl
  rw [h1, List.take_replicate]
  norm_num

/-- **C2, amended.** Every handler reads the POST body through
`io.LimitReader(·, 1<<20)`: the processed body is the first 1 MiB of the
request body (the whole body when it is within the limit), never a fault on
size; the Action-Failed "Failed to read request body" fault arises only from
a transport-level read error. -/
theorem body_read_truncates (bytes : List Nat) :
    readBody bytes false = .ok (bytes.take 1048576) ∧
    (bytes.take 1048576).length = min bytes.length 1048576 ∧
    readBody bytes true = .error "Failed to read request body" := by
  refine ⟨rfl, ?_, rfl⟩
  simp [List.length_take, Nat.min_comm]

/-- **C4, counterexample.** The claim says a Password whose `Type` attribute
is the WS-Security plaintext (PasswordText) URI succeeds in plaintext mode
when the credentials match.  On the code, plaintext mode is selected only by
an *empty* `Type` attribute; the PasswordText URI falls through to the
"unsupported password type" rejection even with correct credentials. -/
theorem passwordText_uri_rejected_cex :
    (validateUsernameToken trivialEnv
        (some ⟨⟨"admin", ⟨passwordTextURI, "secret"⟩, "", ""⟩⟩) "admin" "secret" []).1
      = .error ("unsupported password type: " ++ passwordTextURI) ∧
    (validateUsernameToken trivialEnv
        (some ⟨⟨"admin", ⟨passwordTextURI, "secret"⟩, "", ""⟩⟩) "admin" "secret" []).1
      ≠ .ok () := by
  have h : (validateUsernameToken trivialEnv
        (some ⟨⟨"admin", ⟨passwordTextURI, "secret"⟩, "", ""⟩⟩) "admin" "secret" []).1
      = .error ("unsupported password type: " ++ passwordTextURI) := rfl
  exact ⟨h, by rw [h]; simp⟩

/-- **C4, amended.** Plaintext mode is selected by an empty `Type` attribute:
with `Type = ""` and matching username/password (constant-time compared),
`ValidateUsernameToken` succeeds; every nonempty `Type` other than the
PasswordDigest URI — including the PasswordText URI — is rejected as an
unsupported password type. -/
theorem plaintext_mode_empty_type (env : AuthEnv) (u p : String) (used : List String)
    (sec : Security) (hu : sec.usernameToken.username = u) :
    (sec.usernameToken.password.type = "" → sec.usernameToken.password.value = p →
        validateUsernameToken env (some sec) u p used = (.ok (), used)) ∧
    (sec.usernameToken.password.type ≠ "" → sec.usernameToken.password.type ≠ digestURI →
        validateUsernameToken env (some sec) u p used
          = (.error ("unsupported password type: " ++ sec.usernameToken.password.type), used)) := by
  constructor
  · intro ht hv
    simp only [validateUsernameToken]
    rw [if_neg (by simp [hu]), if_pos ht, if_neg (by simp [hv])]
  · intro ht hd
    simp only [validateUsernameToken]
    rw [if_neg (by simp [hu]), if_neg ht, if_neg hd]

/-- Witness for `plaintext_mode_empty_type` at concrete inputs. -/
theorem plaintext_mode_empty_type_witness :
    ((⟨⟨"admin", ⟨"", "pw"⟩, "", ""⟩⟩ : Security).usernameToken.username = "admin") ∧
    validateUsernameToken trivialEnv (some ⟨⟨"admin", ⟨"", "pw"⟩, "", ""⟩⟩) "admin" "pw" []
      = (.ok (), []) ∧
    validateUsernameToken trivialEnv (some ⟨⟨"admin", ⟨passwordTextURI, "pw"⟩, "", ""⟩⟩)
        "admin" "pw" []
      = (.error ("unsupported password type: " ++ passwordTextURI), []) := by
  refine ⟨rfl, ?_, ?_⟩
  · exact (plaintext_mode_empty_type trivialEnv "admin" "pw" []
      ⟨⟨"admin", ⟨"", "pw"⟩, "", ""⟩⟩ rfl).1 rfl rfl
  · exact (plaintext_mode_empty_type trivialEnv "admin" "pw" []
      ⟨⟨"admin", ⟨passwordTextURI, "pw"⟩, "", ""⟩⟩ rfl).2 (by decide) (by decide)

/-- **C5.** `ConfigurePath` performs the delete-then-recreate fallback exactly
when the first create failed as an `apiError` with status 400 and message
"path already exists" (which is what `addPath` produces from an HTTP 400
response whose JSON body decodes to that error string); any other create
failure is returned to the caller unmodified with no delete attempted. -/
theorem configure_path_fallback (name : String) (r : RelayOracle) :
    ((configurePath name r).2 = true ↔
        r.firstCreate = .error (.api 400 "path already exists")) ∧
    (∀ e, r.firstCreate = .error e → isPathExistsError e = false →
        configurePath name r = (.error e.text, false)) ∧
    (∀ e, isPathExistsError e = true ↔ e = .api 400 "path already exists") ∧
    (∀ statusCode m raw, m ≠ "" →
        (addPathResult statusCode (some m) raw = .error (.api 400 "path already exists")
          ↔ statusCode = 400 ∧ m = "path already exists")) := by
  have hiff : ∀ e, isPathExistsError e = true ↔ e = .api 400 "path already exists" := by
    intro e
    cases e with
    | api s m => simp [isPathExistsError]
    | other m => simp [isPathExistsError]
  refine ⟨?_, ?_, hiff, ?_⟩
  · cases hf : r.firstCreate with
    | ok _ => simp [configurePath, hf]
    | error e =>
      by_cases he : isPathExistsError e = true
      · have he' := (hiff e).mp he
        subst he'
        cases hd : r.deleteRes with
        | ok _ =>
          cases hs : r.secondCreate with
          | ok _ => simp [configurePath, hf, hd, hs, isPathExistsError]
          | error e2 => simp [configurePath, hf, hd, hs, isPathExistsError]
        | error de => simp [configurePath, hf, hd, isPathExistsError]
      · have he' : isPathExistsError e = false := by
          cases hb : isPathExistsError e
          · rfl
          · exact absurd hb he
        simp [configurePath, hf, he']
        intro hcontra
        exact he ((hiff e).mpr hcontra)
  · intro e hf he
    simp [configurePath, hf, he]
  · intro s m raw hm
    by_cases hs : s = 200
    · subst hs
      simp [addPathResult]
    · simp only [addPathResult, if_neg hs, if_pos hm]
      constructor
      · intro h
        have := Except.error.inj h
        cases this
        exact ⟨rfl, rfl⟩
      · rintro ⟨rfl, rfl⟩
        rfl

/-- Witness for `configure_path_fallback` at concrete inputs. -/
theorem configure_path_fallback_witness :
    (configurePath "cam1"
        ⟨.error (.api 400 "path already exists"), .ok (), .ok ()⟩).2 = true ∧
    configurePath "cam1" ⟨.error (.api 404 "not found"), .ok (), .ok ()⟩
      = (.error ((MtxErr.api 404 "not found").text), false) ∧
    addPathResult 400 (some "path already exists") ""
      = .error (.api 400 "path already exists") := by
  refine ⟨?_, ?_, ?_⟩
  · exact (configure_path_fallback "cam1"
      ⟨.error (.api 400 "path already exists"), .ok (), .ok ()⟩).1.mpr rfl
  · exact (configure_path_fallback "cam1"
      ⟨.error (.api 404 "not found"), .ok (), .ok ()⟩).2.1 _ rfl (by decide)
  · exact ((configure_path_fallback "cam1"
      ⟨.error (.api 404 "not found"), .ok (), .ok ()⟩).2.2.2 400 "path already exists" ""
      (by decide)).mpr ⟨rfl, rfl⟩

/-- **C7.** For every velocity in [0,1], the speed returned by
`ONVIFToAtomCam` equals round(velocity·8)+1 clamped to [1,9]; it is never 0,
velocity 0 yields speed 1 and velocity 1 yields speed 9. -/
theorem speed_formula (x y v : ℚ) (h0 : 0 ≤ v) (h1 : v ≤ 1) :
    (ONVIFToAtomCam x y v).2.2 = min 9 (max 1 (goRound (v * 8) + 1)) ∧
    1 ≤ (ONVIFToAtomCam x y v).2.2 ∧ (ONVIFToAtomCam x y v).2.2 ≤ 9 ∧
    (ONVIFToAtomCam x y v).2.2 ≠ 0 ∧
    (v = 0 → (ONVIFToAtomCam x y v).2.2 = 1) ∧
    (v = 1 → (ONVIFToAtomCam x y v).2.2 = 9) := by
  have hclamp : clamp v 0 1 = v := by
    simp only [clamp, if_neg (not_lt.mpr h0), if_neg (not_lt.mpr h1)]
  have hge : (0 : ℚ) ≤ v * 8 := by positivity
  have hround : goRound (v * 8) = ⌊v * 8 + 1/2⌋ := by simp only [goRound, if_pos hge]
  have hlo : 0 ≤ ⌊v * 8 + 1/2⌋ := Int.le_floor.mpr (by push_cast; linarith)
  have hhi : ⌊v * 8 + 1/2⌋ ≤ 8 := by
    have : ⌊v * 8 + 1/2⌋ < 9 := Int.floor_lt.mpr (by push_cast; linarith)
    omega
  have key : (ONVIFToAtomCam x y v).2.2 = ⌊v * 8 + 1/2⌋ + 1 := by
    simp only [ONVIFToAtomCam, hclamp, hround]
    rw [if_neg (by omega), if_neg (by omega)]
  refine ⟨by rw [key, hround]; omega, by omega, by omega, by omega, ?_, ?_⟩
  · intro hv
    subst hv
    rw [key]
    have hf : ⌊(0 : ℚ) * 8 + 1/2⌋ = 0 := by
      rw [Int.floor_eq_iff] ; norm_num
    rw [hf]
    rfl
  · intro hv
    subst hv
    rw [key]
    have hf : ⌊(1 : ℚ) * 8 + 1/2⌋ = 8 := by
      rw [Int.floor_eq_iff] ; norm_num
    rw [hf]
    rfl

/-- Witness for `speed_formula` at velocity 1/2. -/
theorem speed_formula_witness :
    (0 : ℚ) ≤ 1/2 ∧ (1/2 : ℚ) ≤ 1 ∧
    1 ≤ (ONVIFToAtomCam 0 0 (1/2)).2.2 ∧ (ONVIFToAtomCam 0 0 (1/2)).2.2 ≤ 9 ∧
    (ONVIFToAtomCam 0 0 (1/2)).2.2 = 5 := by
  have h5 : (ONVIFToAtomCam 0 0 (1/2)).2.2 = 5 := by
    have hf : ⌊(1/2 : ℚ) * 8 + 1/2⌋ = 4 := by
      rw [Int.floor_eq_iff] ; norm_num
    norm_num [ONVIFToAtomCam, clamp, goRound, hf]
  refine ⟨by norm_num, by norm_num, ?_, ?_, h5⟩
  · exact (speed_formula 0 0 (1/2) (by norm_num) (by norm_num)).2.1
  · exact (speed_formula 0 0 (1/2) (by norm_num) (by norm_num)).2.2.1

/-- **C8.** On a found, PTZ-capable profile, `ContinuousMove` with a pan/tilt
velocity of magnitude below 0.01 (equivalently, squared magnitude below
1/10000) sends a `PTZStop` and no move command; with magnitude at or above
the threshold it sends a `PTZMove`, not a stop. -/
theorem continuous_move_threshold (profileToken camName : String) (vx vy : ℚ)
    (zoom : Option ℚ) (st : CamState) (stopRes moveRes : Except String Unit) :
    (vx * vx + vy * vy < 1/10000 →
        continuousMove true true profileToken camName (some (vx, vy)) zoom st stopRes moveRes
          = (stopRes, st, some .stop)) ∧
    (1/10000 ≤ vx * vx + vy * vy →
        ∃ p t s,
          (continuousMove true true profileToken camName (some (vx, vy)) zoom st
              stopRes moveRes).2.2 = some (.move p t s)) := by
  constructor
  · intro h
    have h' : vx * vx + vy * vy < (10000 : ℚ)⁻¹ := by rw [← one_div]; exact h
    simp [continuousMove, h']
  · intro h
    have h' : ¬ (vx * vx + vy * vy < (10000 : ℚ)⁻¹) := by
      rw [← one_div]; exact not_lt.mpr h
    refine ⟨clampZ (st.pan + goTrunc (vx * 5)) 0 355,
            clampZ (st.tilt + goTrunc (vy * 5)) 0 180,
            contSpeed (vx * vx + vy * vy), ?_⟩
    simp [continuousMove, h']

/-- Witness for `continuous_move_threshold`: magnitude 0.005 stops, magnitude
1 moves. -/
theorem continuous_move_threshold_witness :
    ((1/200 : ℚ) * (1/200) + 0 * 0 < 1/10000) ∧
    continuousMove true true "profile1" "cam1" (some (1/200, 0)) none ⟨100, 90⟩
        (.ok ()) (.ok ())
      = (.ok (), ⟨100, 90⟩, some .stop) ∧
    ((1/10000 : ℚ) ≤ 1 * 1 + 0 * 0) ∧
    (∃ p t s,
      (continuousMove true true "profile1" "cam1" (some (1, 0)) none ⟨100, 90⟩
          (.ok ()) (.ok ())).2.2 = some (.move p t s)) := by
  refine ⟨by norm_num, ?_, by norm_num, ?_⟩
  · exact (continuous_move_threshold "profile1" "cam1" (1/200) 0 none ⟨100, 90⟩
      (.ok ()) (.ok ())).1 (by norm_num)
  · exact (continuous_move_threshold "profile1" "cam1" 1 0 none ⟨100, 90⟩
      (.ok ()) (.ok ())).2 (by norm_num)

/-! ### Shared inversion lemmas for the digest-mode validator -/

/-- In digest mode with the expected username and nonempty nonce/created, a
nonce already present in the used set is rejected as a replay, whatever the
supplied password digest is, and the set is unchanged. -/
theorem validate_replay_of_mem (env : AuthEnv) (sec : Security) (u p : String)
    (used : List String)
    (ht : sec.usernameToken.password.type = digestURI)
    (hu : sec.usernameToken.username = u)
    (hn : sec.usernameToken.nonce ≠ "") (hc : sec.usernameToken.created ≠ "")
    (hmem : sec.usernameToken.nonce ∈ used) :
    validateUsernameToken env (some sec) u p used = (.error replayErrorMsg, used) := by
  simp only [validateUsernameToken]
  rw [if_neg (by simp [hu]), if_neg (by rw [ht]; decide), if_pos ht,
      if_neg (by simp [hn, hc]), if_pos hmem]

/-- In digest mode with the expected username and nonempty nonce/created, a
nonce not yet in the used set is recorded by `LoadOrStore` before the
timestamp, encoding and digest checks run: the resulting set is
`nonce :: used`, whatever those later checks decide. -/
theorem validate_records_nonce (env : AuthEnv) (sec : Security) (u p : String)
    (used : List String)
    (ht : sec.usernameToken.password.type = digestURI)
    (hu : sec.usernameToken.username = u)
    (hn : sec.usernameToken.nonce ≠ "") (hc : sec.usernameToken.created ≠ "")
    (hmem : sec.usernameToken.nonce ∉ used) :
    (validateUsernameToken env (some sec) u p used).2
      = sec.usernameToken.nonce :: used := by
  simp only [validateUsernameToken]
  rw [if_neg (by simp [hu]), if_neg (by rw [ht]; decide), if_pos ht,
      if_neg (by simp [hn, hc]), if_neg hmem]
  cases hp : env.parseRFC3339 sec.usernameToken.created with
  | none => rfl
  | some createdTime =>
    dsimp only
    split_ifs with h1
    · rfl
    · cases hb : env.base64Decode sec.usernameToken.nonce with
      | none => rfl
      | some nonceBytes =>
        dsimp only
        split_ifs with h2
        · rfl
        · rfl

/-- Inversion of a successful digest-mode validation: the username matched,
nonce and created were present, the nonce was fresh, and it is now recorded. -/
theorem validate_ok_inversion (env : AuthEnv) (sec : Security) (u p : String)
    (used : List String)
    (ht : sec.usernameToken.password.type = digestURI)
    (hok : (validateUsernameToken env (some sec) u p used).1 = .ok ()) :
    sec.usernameToken.username = u ∧ sec.usernameToken.nonce ≠ "" ∧
    sec.usernameToken.created ≠ "" ∧ sec.usernameToken.nonce ∉ used ∧
    (validateUsernameToken env (some sec) u p used).2
      = sec.usernameToken.nonce :: used := by
  by_cases hu : sec.usernameToken.username = u
  · by_cases hnc : sec.usernameToken.nonce = "" ∨ sec.usernameToken.created = ""
    · exfalso
      rw [show validateUsernameToken env (some sec) u p used
            = (.error "nonce and created are required for password digest", used) by
          simp only [validateUsernameToken]
          rw [if_neg (by simp [hu]), if_neg (by rw [ht]; decide), if_pos ht,
              if_pos hnc]] at hok
      exact absurd hok (by simp)
    · push_neg at hnc
      obtain ⟨hn, hc⟩ := hnc
      by_cases hmem : sec.usernameToken.nonce ∈ used
      · exfalso
        rw [validate_replay_of_mem env sec u p used ht hu hn hc hmem] at hok
        exact absurd hok (by simp [replayErrorMsg])
      · exact ⟨hu, hn, hc, hmem,
          validate_records_nonce env sec u p used ht hu hn hc hmem⟩
  · exfalso
    rw [show validateUsernameToken env (some sec) u p used
          = (.error "invalid credentials", used) by
        simp only [validateUsernameToken]
        rw [if_pos hu]] at hok
    exact absurd hok (by simp)

/-- **C1.** In digest mode a nonce value is accepted at most once until
purged: a validation presenting a nonce already recorded in the used-nonce
set is rejected with the replay error regardless of the supplied password
digest, and after any successful validation the identical validation is
rejected with the replay error while the recorded set stays unchanged. -/
theorem digest_nonce_single_use (env : AuthEnv) (sec : Security) (u p : String)
    (used : List String)
    (ht : sec.usernameToken.password.type = digestURI) :
    (sec.usernameToken.username = u → sec.usernameToken.nonce ≠ "" →
     sec.usernameToken.created ≠ "" → sec.usernameToken.nonce ∈ used →
        validateUsernameToken env (some sec) u p used = (.error replayErrorMsg, used)) ∧
    ((validateUsernameToken env (some sec) u p used).1 = .ok () →
        validateUsernameToken env (some sec) u p
            ((validateUsernameToken env (some sec) u p used).2)
          = (.error replayErrorMsg,
             (validateUsernameToken env (some sec) u p used).2)) := by
  constructor
  · intro hu hn hc hmem
    exact validate_replay_of_mem env sec u p used ht hu hn hc hmem
  · intro hok
    obtain ⟨hu, hn, hc, _, hst⟩ := validate_ok_inversion env sec u p used ht hok
    rw [hst]
    exact validate_replay_of_mem env sec u p _ ht hu hn hc (List.mem_cons_self _ _)

/-- Witness for `digest_nonce_single_use`: a concrete digest validation that
succeeds once and is rejected as a replay when repeated verbatim. -/
theorem digest_nonce_single_use_witness :
    (validateUsernameToken trivialEnv
        (some ⟨⟨"admin", ⟨digestURI, "D"⟩, "Tk9OQ0U=", "2024-01-01T00:00:00Z"⟩⟩)
        "admin" "pw" []).1 = .ok () ∧
    validateUsernameToken trivialEnv
        (some ⟨⟨"admin", ⟨digestURI, "D"⟩, "Tk9OQ0U=", "2024-01-01T00:00:00Z"⟩⟩)
        "admin" "pw"
        ((validateUsernameToken trivialEnv
            (some ⟨⟨"admin", ⟨digestURI, "D"⟩, "Tk9OQ0U=", "2024-01-01T00:00:00Z"⟩⟩)
            "admin" "pw" []).2)
      = (.error replayErrorMsg,
         (validateUsernameToken trivialEnv
            (some ⟨⟨"admin", ⟨digestURI, "D"⟩, "Tk9OQ0U=", "2024-01-01T00:00:00Z"⟩⟩)
            "admin" "pw" []).2) := by
  have hok : (validateUsernameToken trivialEnv
      (some ⟨⟨"admin", ⟨digestURI, "D"⟩, "Tk9OQ0U=", "2024-01-01T00:00:00Z"⟩⟩)
      "admin" "pw" []).1 = .ok () := rfl
  exact ⟨hok,
    (digest_nonce_single_use trivialEnv
      ⟨⟨"admin", ⟨digestURI, "D"⟩, "Tk9OQ0U=", "2024-01-01T00:00:00Z"⟩⟩
      "admin" "pw" [] rfl).2 hok⟩

/-- **C10.** In digest mode the client nonce is recorded into the used-nonce
set before the created-timestamp and password-digest checks run, so even a
validation that ultimately fails consumes the nonce; every subsequent
validation presenting the same nonce value — including a corrected retry with
any environment, created value or password — is rejected as a replay. -/
theorem digest_nonce_consumed_on_failure (env : AuthEnv) (sec : Security)
    (u p : String) (used : List String)
    (ht : sec.usernameToken.password.type = digestURI)
    (hu : sec.usernameToken.username = u)
    (hn : sec.usernameToken.nonce ≠ "") (hc : sec.usernameToken.created ≠ "")
    (hmem : sec.usernameToken.nonce ∉ used) :
    sec.usernameToken.nonce ∈ (validateUsernameToken env (some sec) u p used).2 ∧
    (∀ (env₂ : AuthEnv) (sec₂ : Security) (p₂ : String),
        sec₂.usernameToken.password.type = digestURI →
        sec₂.usernameToken.username = u →
        sec₂.usernameToken.nonce = sec.usernameToken.nonce →
        sec₂.usernameToken.created ≠ "" →
        validateUsernameToken env₂ (some sec₂) u p₂
            ((validateUsernameToken env (some sec) u p used).2)
          = (.error replayErrorMsg,
             (validateUsernameToken env (some sec) u p used).2)) := by
  have hst := validate_records_nonce env sec u p used ht hu hn hc hmem
  constructor
  · rw [hst]
    exact List.mem_cons_self _ _
  · intro env₂ sec₂ p₂ ht₂ hu₂ hn₂ hc₂
    exact validate_replay_of_mem env₂ sec₂ u p₂ _ ht₂ hu₂ (by rw [hn₂]; exact hn) hc₂
      (by rw [hst, hn₂]; exact List.mem_cons_self _ _)

/-- Witness for `digest_nonce_consumed_on_failure`: under `noParseEnv` the
first validation fails on the created timestamp, yet the nonce is consumed
and an identical retry is rejected as a replay. -/
theorem digest_nonce_consumed_on_failure_witness :
    (validateUsernameToken noParseEnv
        (some ⟨⟨"admin", ⟨digestURI, "D"⟩, "Tk9OQ0U=", "bogus"⟩⟩)
        "admin" "pw" []).1 = .error "invalid created timestamp" ∧
    "Tk9OQ0U=" ∈ (validateUsernameToken noParseEnv
        (some ⟨⟨"admin", ⟨digestURI, "D"⟩, "Tk9OQ0U=", "bogus"⟩⟩)
        "admin" "pw" []).2 ∧
    validateUsernameToken noParseEnv
        (some ⟨⟨"admin", ⟨digestURI, "D"⟩, "Tk9OQ0U=", "bogus"⟩⟩)
        "admin" "pw"
        ((validateUsernameToken noParseEnv
            (some ⟨⟨"admin", ⟨digestURI, "D"⟩, "Tk9OQ0U=", "bogus"⟩⟩)
            "admin" "pw" []).2)
      = (.error replayErrorMsg,
         (validateUsernameToken noParseEnv
            (some ⟨⟨"admin", ⟨digestURI, "D"⟩, "Tk9OQ0U=", "bogus"⟩⟩)
            "admin" "pw" []).2) := by
  have h := digest_nonce_consumed_on_failure noParseEnv
    ⟨⟨"admin", ⟨digestURI, "D"⟩, "Tk9OQ0U=", "bogus"⟩⟩ "admin" "pw" []
    rfl rfl (by decide) (by decide) (by decide)
  exact ⟨rfl, h.1, h.2 noParseEnv _ "pw" rfl rfl rfl (by decide)⟩

/-- **C3.** For the Device service handler and the root fallback, with no
Security header in the request, every action other than `GetSystemDateAndTime`
receives the Not-Authorized fault (so its service operation is not invoked),
while `GetSystemDateAndTime` is dispatched normally without authentication. -/
theorem device_auth_gate (env : AuthEnv) (u p : String) (used : List String) :
    (∀ (action : String) (bodyParseOk : Bool), action ≠ "GetSystemDateAndTime" →
        handleDeviceAction (validateAuth env none u p used).1 bodyParseOk action
          = .notAuthorizedFault) ∧
    (∀ bodyParseOk : Bool,
        handleDeviceAction (validateAuth env none u p used).1 bodyParseOk
            "GetSystemDateAndTime"
          = .invoked "GetSystemDateAndTime") ∧
    (∀ (action : String) (bodyParseOk : Bool), action ≠ "GetSystemDateAndTime" →
        (action ∈ rootDeviceActions ∨ action ∈ rootMediaActions ∨
         action ∈ rootPTZActions ∨ action ∈ rootImagingActions) →
        handleRootAction (validateAuth env none u p used).1 bodyParseOk action
          = .notAuthorizedFault) ∧
    (∀ bodyParseOk : Bool,
        handleRootAction (validateAuth env none u p used).1 bodyParseOk
            "GetSystemDateAndTime"
          = .invoked "GetSystemDateAndTime") := by
  have hres : (validateAuth env none u p used).1 = .error "missing security header" := rfl
  refine ⟨?_, ?_, ?_, ?_⟩
  · intro action bodyParseOk hne
    rw [hres]
    simp only [handleDeviceAction]
    rw [if_pos ⟨hne, by decide⟩]
  · intro bodyParseOk
    rw [hres]
    cases bodyParseOk <;> decide
  · intro action bodyParseOk hne hmem
    simp only [rootDeviceActions, rootMediaActions, rootPTZActions, rootImagingActions,
      List.mem_cons, List.mem_singleton, List.not_mem_nil, or_false] at hmem
    rw [hres]
    rcases hmem with (rfl | rfl | rfl) | (rfl | rfl | rfl) |
      (rfl | rfl | rfl | rfl | rfl | rfl | rfl | rfl | rfl) | (rfl | rfl | rfl) <;>
      first
        | exact absurd rfl hne
        | (cases bodyParseOk <;> decide)
  · intro bodyParseOk
    rw [hres]
    cases bodyParseOk <;> decide

/-- Witness for `device_auth_gate` at concrete actions. -/
theorem device_auth_gate_witness :
    handleDeviceAction (validateAuth trivialEnv none "admin" "pw" []).1 true
        "GetDeviceInformation" = .notAuthorizedFault ∧
    handleDeviceAction (validateAuth trivialEnv none "admin" "pw" []).1 true
        "GetSystemDateAndTime" = .invoked "GetSystemDateAndTime" ∧
    handleRootAction (validateAuth trivialEnv none "admin" "pw" []).1 true
        "GetProfiles" = .notAuthorizedFault := by
  refine ⟨?_, ?_, ?_⟩
  · exact (device_auth_gate trivialEnv "admin" "pw" []).1 "GetDeviceInformation" true
      (by decide)
  · exact (device_auth_gate trivialEnv "admin" "pw" []).2.1 true
  · exact (device_auth_gate trivialEnv "admin" "pw" []).2.2.1 "GetProfiles" true
      (by decide) (by decide)

/-- Evaluation of the legacy (no-FOV) conversion at the ONVIF origin:
`ONVIFToAtomCam(0, 0, 0.5) = (178, 90, 5)`. -/
theorem onvifToAtomCam_origin : ONVIFToAtomCam 0 0 (1/2) = (178, 90, 5) := by
  have h1 : clamp (0 : ℚ) (-1) 1 = 0 := by norm_num [clamp]
  have h2 : clamp (1/2 : ℚ) 0 1 = 1/2 := by norm_num [clamp]
  have hp : goRound (((0 : ℚ) + 1) * (355/2)) = 178 := by
    rw [goRound, if_pos (by norm_num), Int.floor_eq_iff]
    norm_num
  have ht : goRound ((1 - (0 : ℚ)) * 90) = 90 := by
    rw [goRound, if_pos (by norm_num), Int.floor_eq_iff]
    norm_num
  have hs : goRound ((1/2 : ℚ) * 8) = 4 := by
    rw [goRound, if_pos (by norm_num), Int.floor_eq_iff]
    norm_num
  simp only [ONVIFToAtomCam, h1, h2, hp, ht, hs]
  norm_num

/-- **C9, counterexample.** The claim says the tracked PTZ estimate is left
unchanged when the camera command fails.  On the code, `SetPTZPosition` runs
*before* `Client.PTZMove` on every move path: an `AbsoluteMove` whose camera
command fails still moves the tracked estimate from (100, 90) to the computed
target (178, 90). -/
theorem ptz_estimate_moved_despite_failure_cex :
    absoluteMove true true "profile1" "cam1" (some (0, 0)) none none 0 0 none
        ⟨100, 90⟩ (.error "camera unreachable")
      = (.error "camera unreachable", ⟨178, 90⟩, some (.move 178 90 5)) ∧
    (⟨178, 90⟩ : CamState) ≠ ⟨100, 90⟩ := by
  constructor
  · simp only [absoluteMove, onvifToAtomCam_origin]
    norm_num
  · intro h
    exact absurd (congrArg CamState.pan h) (by decide)

/-- **C9, amended.** For every PTZ operation that commands a move —
`ContinuousMove`, `AbsoluteMove`, `RelativeMove`, `GotoHomePosition` and
`GotoPreset` (position presets) — the tracked PTZ estimate is updated to the
computed target *before* the camera command is issued: the final estimate is
the same whether `PTZMove` succeeds or fails, and a failing command error is
surfaced to the caller while the estimate keeps the attempted target, not its
previous value. -/
theorem ptz_estimate_updated_before_send (profileToken camName : String)
    (vx vy : ℚ) (zoom : Option ℚ) (st : CamState)
    (stopRes mqttRes : Except String Unit) (e : String)
    (hmag : 1/10000 ≤ vx * vx + vy * vy)
    (x y tx ty : ℚ) (speed : Option (ℚ × ℚ)) (hFOV vFOV : ℚ)
    (home : Option (ℤ × ℤ))
    (presetToken : String) (presets : List PTZPreset) (preset : PTZPreset)
    (hfind : findPreset presets presetToken = some preset)
    (hbroker : preset.mqttBroker = "") :
    ((continuousMove true true profileToken camName (some (vx, vy)) zoom st
          stopRes (.error e)).2.1
       = (continuousMove true true profileToken camName (some (vx, vy)) zoom st
            stopRes (.ok ())).2.1 ∧
     (continuousMove true true profileToken camName (some (vx, vy)) zoom st
          stopRes (.error e)).1 = .error e) ∧
    ((absoluteMove true true profileToken camName (some (x, y)) none speed
          hFOV vFOV home st (.error e)).2.1
       = (absoluteMove true true profileToken camName (some (x, y)) none speed
            hFOV vFOV home st (.ok ())).2.1 ∧
     (absoluteMove true true profileToken camName (some (x, y)) none speed
          hFOV vFOV home st (.error e)).1 = .error e) ∧
    ((relativeMove true true profileToken camName (some (tx, ty)) none speed
          hFOV vFOV home st (.error e)).2.1
       = (relativeMove true true profileToken camName (some (tx, ty)) none speed
            hFOV vFOV home st (.ok ())).2.1 ∧
     (relativeMove true true profileToken camName (some (tx, ty)) none speed
          hFOV vFOV home st (.error e)).1 = .error e) ∧
    ((gotoHomePosition true true profileToken camName speed home st
          (.error e)).2.1
       = (gotoHomePosition true true profileToken camName speed home st
            (.ok ())).2.1 ∧
     (gotoHomePosition true true profileToken camName speed home st
          (.error e)).1 = .error e ∧
     (gotoHomePosition true true profileToken camName speed home st
          (.error e)).2.1 = ⟨(home.getD (160, 130)).1, (home.getD (160, 130)).2⟩) ∧
    ((gotoPreset true true profileToken camName presetToken presets speed st
          mqttRes (.error e)).2.1
       = (gotoPreset true true profileToken camName presetToken presets speed st
            mqttRes (.ok ())).2.1 ∧
     (gotoPreset true true profileToken camName presetToken presets speed st
          mqttRes (.error e)).1 = .error e ∧
     (gotoPreset true true profileToken camName presetToken presets speed st
          mqttRes (.error e)).2.1 = ⟨preset.pan, preset.tilt⟩) := by
  have h' : ¬ (vx * vx + vy * vy < (10000 : ℚ)⁻¹) := by
    rw [← one_div]
    exact not_lt.mpr hmag
  refine ⟨⟨?_, ?_⟩, ⟨?_, ?_⟩, ⟨?_, ?_⟩, ⟨?_, ?_, ?_⟩, ⟨?_, ?_, ?_⟩⟩
  · simp [continuousMove, h']
  · simp [continuousMove, h']
  · simp [absoluteMove]
  · simp [absoluteMove]
  · simp [relativeMove]
  · simp [relativeMove]
  · simp [gotoHomePosition]
  · simp [gotoHomePosition]
  · simp [gotoHomePosition]
  · simp [gotoPreset, hfind, hbroker]
  · simp [gotoPreset, hfind, hbroker]
  · simp [gotoPreset, hfind, hbroker]

/-- Witness for `ptz_estimate_updated_before_send` at concrete inputs
(a single position preset with the default "1" token). -/
theorem ptz_estimate_updated_before_send_witness :
    ((1/10000 : ℚ) ≤ 1 * 1 + 0 * 0) ∧
    findPreset [⟨"spot", 10, 20, "", "", "", ""⟩] "1"
      = some ⟨"spot", 10, 20, "", "", "", ""⟩ ∧
    (continuousMove true true "profile1" "cam1" (some (1, 0)) none ⟨100, 90⟩
        (.ok ()) (.error "down")).2.1
      = (continuousMove true true "profile1" "cam1" (some (1, 0)) none ⟨100, 90⟩
          (.ok ()) (.ok ())).2.1 ∧
    (absoluteMove true true "profile1" "cam1" (some (0, 0)) none none 0 0 none
        ⟨100, 90⟩ (.error "down")).1 = .error "down" ∧
    (relativeMove true true "profile1" "cam1" (some (0, 0)) none none 0 0 none
        ⟨100, 90⟩ (.error "down")).1 = .error "down" ∧
    (gotoHomePosition true true "profile1" "cam1" none none ⟨100, 90⟩
        (.error "down")).2.1 = ⟨160, 130⟩ ∧
    (gotoPreset true true "profile1" "cam1" "1" [⟨"spot", 10, 20, "", "", "", ""⟩]
        none ⟨100, 90⟩ (.ok ()) (.error "down")).2.1 = ⟨10, 20⟩ := by
  have hfind : findPreset [(⟨"spot", 10, 20, "", "", "", ""⟩ : PTZPreset)] "1"
      = some ⟨"spot", 10, 20, "", "", "", ""⟩ := rfl
  have h := ptz_estimate_updated_before_send "profile1" "cam1" 1 0 none ⟨100, 90⟩
    (.ok ()) (.ok ()) "down" (by norm_num) 0 0 0 0 none 0 0 none
    "1" [⟨"spot", 10, 20, "", "", "", ""⟩] ⟨"spot", 10, 20, "", "", "", ""⟩
    hfind rfl
  exact ⟨by norm_num, hfind, h.1.1, h.2.1.2, h.2.2.1.2, h.2.2.2.1.2.2, h.2.2.2.2.2.2⟩

/-- **C6.** For all (x, y) ∈ [-1,1]² and any velocity, converting to native
degrees and back — `AtomCamToONVIF` applied to the pan and tilt produced by
`ONVIFToAtomCam(x, y, v)` — reproduces (x, y) within the integer-degree
rounding error: |x· − x| ≤ 1/177.5 = 2/355 and |y· − y| ≤ 1/90. -/
theorem coordinate_roundtrip (x y v : ℚ)
    (hx0 : -1 ≤ x) (hx1 : x ≤ 1) (hy0 : -1 ≤ y) (hy1 : y ≤ 1) :
    |(AtomCamToONVIF (ONVIFToAtomCam x y v).1 (ONVIFToAtomCam x y v).2.1).1 - x|
      ≤ 2/355 ∧
    |(AtomCamToONVIF (ONVIFToAtomCam x y v).1 (ONVIFToAtomCam x y v).2.1).2 - y|
      ≤ 1/90 := by
  have hcx : clamp x (-1) 1 = x := by
    simp only [clamp, if_neg (not_lt.mpr hx0), if_neg (not_lt.mpr hx1)]
  have hcy : clamp y (-1) 1 = y := by
    simp only [clamp, if_neg (not_lt.mpr hy0), if_neg (not_lt.mpr hy1)]
  have htx : (0 : ℚ) ≤ (x + 1) * (355/2) := mul_nonneg (by linarith) (by norm_num)
  have hty : (0 : ℚ) ≤ (1 - y) * 90 := mul_nonneg (by linarith) (by norm_num)
  have hpan : (ONVIFToAtomCam x y v).1 = ⌊(x + 1) * (355/2) + 1/2⌋ := by
    simp only [ONVIFToAtomCam, hcx, goRound, if_pos htx]
  have htilt : (ONVIFToAtomCam x y v).2.1 = ⌊(1 - y) * 90 + 1/2⌋ := by
    simp only [ONVIFToAtomCam, hcy, goRound, if_pos hty]
  -- bounds on the rounded pan
  have hp_le : ((⌊(x + 1) * (355/2) + 1/2⌋ : ℤ) : ℚ) ≤ (x + 1) * (355/2) + 1/2 :=
    Int.floor_le _
  have hp_gt : (x + 1) * (355/2) + 1/2 - 1
      < ((⌊(x + 1) * (355/2) + 1/2⌋ : ℤ) : ℚ) := Int.sub_one_lt_floor _
  have hp0 : (0 : ℤ) ≤ ⌊(x + 1) * (355/2) + 1/2⌋ :=
    Int.le_floor.mpr (by push_cast; linarith)
  have hp355 : ⌊(x + 1) * (355/2) + 1/2⌋ ≤ 355 := by
    have h : ⌊(x + 1) * (355/2) + 1/2⌋ < 356 :=
      Int.floor_lt.mpr (by push_cast; linarith)
    omega
  -- bounds on the rounded tilt
  have hq_le : ((⌊(1 - y) * 90 + 1/2⌋ : ℤ) : ℚ) ≤ (1 - y) * 90 + 1/2 :=
    Int.floor_le _
  have hq_gt : (1 - y) * 90 + 1/2 - 1 < ((⌊(1 - y) * 90 + 1/2⌋ : ℤ) : ℚ) :=
    Int.sub_one_lt_floor _
  have hq0 : (0 : ℤ) ≤ ⌊(1 - y) * 90 + 1/2⌋ :=
    Int.le_floor.mpr (by push_cast; linarith)
  have hq180 : ⌊(1 - y) * 90 + 1/2⌋ ≤ 180 := by
    have h : ⌊(1 - y) * 90 + 1/2⌋ < 181 :=
      Int.floor_lt.mpr (by push_cast; linarith)
    omega
  -- the raw (unclamped) inverse stays in [-1, 1], so the clamp is the identity
  have hAeq : ((⌊(x + 1) * (355/2) + 1/2⌋ : ℤ) : ℚ) / (355/2) * (355/2)
      = ((⌊(x + 1) * (355/2) + 1/2⌋ : ℤ) : ℚ) := div_mul_cancel₀ _ (by norm_num)
  have hBeq : ((⌊(1 - y) * 90 + 1/2⌋ : ℤ) : ℚ) / 90 * 90
      = ((⌊(1 - y) * 90 + 1/2⌋ : ℤ) : ℚ) := div_mul_cancel₀ _ (by norm_num)
  have hp0Q : (0 : ℚ) ≤ ((⌊(x + 1) * (355/2) + 1/2⌋ : ℤ) : ℚ) := by exact_mod_cast hp0
  have hp355Q : ((⌊(x + 1) * (355/2) + 1/2⌋ : ℤ) : ℚ) ≤ 355 := by exact_mod_cast hp355
  have hq0Q : (0 : ℚ) ≤ ((⌊(1 - y) * 90 + 1/2⌋ : ℤ) : ℚ) := by exact_mod_cast hq0
  have hq180Q : ((⌊(1 - y) * 90 + 1/2⌋ : ℤ) : ℚ) ≤ 180 := by exact_mod_cast hq180
  have hA_lo : -1 ≤ ((⌊(x + 1) * (355/2) + 1/2⌋ : ℤ) : ℚ) / (355/2) - 1 := by
    have h := div_nonneg hp0Q (by norm_num : (0 : ℚ) ≤ 355/2)
    linarith
  have hA_hi : ((⌊(x + 1) * (355/2) + 1/2⌋ : ℤ) : ℚ) / (355/2) - 1 ≤ 1 := by
    linarith [hAeq, hp355Q]
  have hB_lo : -1 ≤ 1 - ((⌊(1 - y) * 90 + 1/2⌋ : ℤ) : ℚ) / 90 := by
    linarith [hBeq, hq180Q]
  have hB_hi : 1 - ((⌊(1 - y) * 90 + 1/2⌋ : ℤ) : ℚ) / 90 ≤ 1 := by
    have h := div_nonneg hq0Q (by norm_num : (0 : ℚ) ≤ 90)
    linarith
  have hclampA : clamp (((⌊(x + 1) * (355/2) + 1/2⌋ : ℤ) : ℚ) / (355/2) - 1) (-1) 1
      = ((⌊(x + 1) * (355/2) + 1/2⌋ : ℤ) : ℚ) / (355/2) - 1 := by
    simp only [clamp, if_neg (not_lt.mpr hA_lo), if_neg (not_lt.mpr hA_hi)]
  have hclampB : clamp (1 - ((⌊(1 - y) * 90 + 1/2⌋ : ℤ) : ℚ) / 90) (-1) 1
      = 1 - ((⌊(1 - y) * 90 + 1/2⌋ : ℤ) : ℚ) / 90 := by
    simp only [clamp, if_neg (not_lt.mpr hB_lo), if_neg (not_lt.mpr hB_hi)]
  have hfst : (AtomCamToONVIF ⌊(x + 1) * (355/2) + 1/2⌋ ⌊(1 - y) * 90 + 1/2⌋).1
      = ((⌊(x + 1) * (355/2) + 1/2⌋ : ℤ) : ℚ) / (355/2) - 1 := by
    simp only [AtomCamToONVIF]
    exact hclampA
  have hsnd : (AtomCamToONVIF ⌊(x + 1) * (355/2) + 1/2⌋ ⌊(1 - y) * 90 + 1/2⌋).2
      = 1 - ((⌊(1 - y) * 90 + 1/2⌋ : ℤ) : ℚ) / 90 := by
    simp only [AtomCamToONVIF]
    exact hclampB
  rw [hpan, htilt]
  constructor
  · rw [hfst, abs_le]
    constructor
    · linarith [hAeq, hp_gt]
    · linarith [hAeq, hp_le]
  · rw [hsnd, abs_le]
    constructor
    · linarith [hBeq, hq_le]
    · linarith [hBeq, hq_gt]

/-- Witness for `coordinate_roundtrip` at (x, y) = (1/2, -1/4). -/
theorem coordinate_roundtrip_witness :
    (-1 ≤ (1/2 : ℚ)) ∧ ((1/2 : ℚ) ≤ 1) ∧ (-1 ≤ (-1/4 : ℚ)) ∧ ((-1/4 : ℚ) ≤ 1) ∧
    |(AtomCamToONVIF (ONVIFToAtomCam (1/2) (-1/4) 0).1
        (ONVIFToAtomCam (1/2) (-1/4) 0).2.1).1 - 1/2| ≤ 2/355 ∧
    |(AtomCamToONVIF (ONVIFToAtomCam (1/2) (-1/4) 0).1
        (ONVIFToAtomCam (1/2) (-1/4) 0).2.1).2 - (-1/4)| ≤ 1/90 := by
  refine ⟨by norm_num, by norm_num, by norm_num, by norm_num, ?_, ?_⟩
  · exact (coordinate_roundtrip (1/2) (-1/4) 0 (by norm_num) (by norm_num)
      (by norm_num) (by norm_num)).1
  · exact (coordinate_roundtrip (1/2) (-1/4) 0 (by norm_num) (by norm_num)
      (by norm_num) (by norm_num)).2

end OnvifRelay
